import Mathlib

/-!
Verification of the DistrictBuilder redistricting views
(src/django/publicmapping/redistricting/views.py) against its
natural-language specification.

The Django view layer is shallowly embedded: database tables become lists
of records, request parameters become function arguments, and each view
becomes a pure function from the relevant state and parameters to a
response value together with the updated state.  Numeric subject values
are modelled as rationals; the Python `int()` coercion in the compliance
code is modelled by explicit truncation toward zero.
-/

/-- A ComputedCharacteristic row attached to a district snapshot:
a subject id together with the aggregated numeric value. -/
structure CharRow where
  subject : Nat
  number : ℚ
deriving DecidableEq, Repr

/-- A District snapshot row, as persisted by the application:
primary key, owning plan, stable district id, the plan version at which
this snapshot became current, a display name, an abstract geometry
payload, the has_geom flag, the lock flag, and the characteristic rows
attached to this snapshot. -/
structure District where
  pk : Nat
  plan : Nat
  district_id : Nat
  version : Nat
  name : String
  geom : Nat
  has_geom : Bool
  is_locked : Bool
  chars : List CharRow
deriving DecidableEq, Repr

/-- A Plan row: id, name, owner, current head version, legislative body
and the shared flag. -/
structure PlanRec where
  id : Nat
  name : String
  owner : Nat
  version : Nat
  legislative_body : Nat
  is_shared : Bool
deriving DecidableEq, Repr

/-- A population Target: subject, ideal value and the two fractional
tolerance bands. -/
structure Target where
  subject : Nat
  value : ℚ
  range1 : ℚ
  range2 : ℚ
deriving DecidableEq, Repr

/-- The persisted state touched by the plan-copy view: the plan table and
the district table (characteristics are embedded in each district row). -/
structure CopyState where
  plans : List PlanRec
  districts : List District
deriving DecidableEq, Repr

/-- Django `computedcharacteristic_set.get(subject=s)`: returns the row
for subject `s` when exactly one exists; any other outcome raises, which
the callers catch, so it is modelled as `none`. -/
def getChar (chars : List CharRow) (s : Nat) : Option CharRow :=
  match chars.filter (fun c => c.subject == s) with
  | [c] => some c
  | _ => none

/-- Python `int()` applied to a (decimal) number: truncation toward zero. -/
def ratTrunc (q : ℚ) : Int :=
  if q.num < 0 then -(((-q.num).toNat / q.den : Nat) : Int)
  else ((q.num.toNat / q.den : Nat) : Int)

/-- Modelled from the spec: section 4.1 Version Resolver.  The method
`Plan.get_districts_at_version` lives in redistricting/models.py, which is
not under src/; the spec states that for each district_id ever created in
the plan it selects the row with the greatest version at or below V, and
district_ids with no such row are absent.  This picks, for one
district_id, the candidate row with the greatest version at or below V. -/
def resolveOne (rows : List District) (planid did V : Nat) : Option District :=
  (rows.filter (fun d => d.plan == planid && d.district_id == did && decide (d.version ≤ V))).foldl
    (fun acc d =>
      match acc with
      | none => some d
      | some b => if b.version < d.version then some d else some b)
    none

/-- Modelled from the spec: the distinct district_ids ever created in the
plan (first-occurrence order). -/
def districtIds (rows : List District) (planid : Nat) : List Nat :=
  ((rows.filter (fun d => d.plan == planid)).map (fun d => d.district_id)).dedup

/-- Modelled from the spec: section 4.1 Version Resolver,
`resolve(plan, V) -> {district_id -> DistrictSnapshot}`: for every
district_id ever created in the plan, the row with the greatest version at
or below V; ids with no such row are absent from the result. -/
def get_districts_at_version (rows : List District) (planid V : Nat) : List District :=
  (districtIds rows planid).filterMap (fun did => resolveOne rows planid did V)

/-- The queryset filtered in setdistrictlock:
`District.objects.filter(plan=plan, district_id=district_id, version__lte=version)`. -/
def lockCandidates (dists : List District) (planid district_id V : Nat) : List District :=
  dists.filter (fun d => d.plan == planid && d.district_id == district_id && decide (d.version ≤ V))

/-- `order_by('version').reverse()[0]`: the first row of the candidates
sorted by descending version, i.e. the row with the greatest version
(earliest candidate wins a tie, matching a stable sort). -/
def maxLockRow : List District → Option District
  | [] => none
  | d :: rest =>
    match maxLockRow rest with
    | none => some d
    | some b => if d.version < b.version then some b else some d

/-- Outcome of the setdistrictlock view. -/
inductive LockOutcome where
  /-- The ObjectDoesNotExist handler: JSON status with this message. -/
  | notFound (msg : String)
  /-- An uncaught IndexError (no district row matched the filter). -/
  | serverError
  /-- HttpResponseForbidden for a requester who is not the plan owner. -/
  | forbidden
  /-- Success JSON status with the given message. -/
  | ok (msg : String)
deriving DecidableEq, Repr

/-- The setdistrictlock view (views.py lines 956-1000): fetch the plan,
select the most recent district row at or below the given version, refuse
non-owners with Forbidden, otherwise set is_locked on that row in place
and save it.  Returns the outcome and the updated district table. -/
def setdistrictlock (plans : List PlanRec) (dists : List District)
    (requester planid district_id V : Nat) (lock : Bool) :
    LockOutcome × List District :=
  match plans.find? (fun p => p.id == planid) with
  | none => (.notFound "Plan or district does not exist.", dists)
  | some plan =>
    match maxLockRow (lockCandidates dists planid district_id V) with
    | none => (.serverError, dists)
    | some t =>
      if plan.owner ≠ requester then (.forbidden, dists)
      else
        (.ok ("District successfully " ++ (if lock then "locked" else "unlocked")),
         dists.map (fun d => if d.pk = t.pk then { d with is_locked := lock } else d))

/-- A fresh plan id, modelling the database autoincrement on plan save. -/
def freshPlanId (plans : List PlanRec) : Nat :=
  plans.foldl (fun m p => max m p.id) 0 + 1

/-- A fresh district primary key, modelling the autoincrement on save
after `district_copy.id = None`. -/
def freshPk (dists : List District) : Nat :=
  dists.foldl (fun m d => max m d.pk) 0 + 1

/-- The district-copy loop of copyplan: skip `Unassigned`, otherwise save
a copy of the snapshot with a fresh primary key, version 0 and the new
plan; all other fields, including the characteristic rows (cloned by
`clone_characteristics_from`, modelled from the spec phrase
"characteristics cloned alongside geometry") and the geometry, carry over. -/
def cloneDistricts (newPlan : Nat) : Nat → List District → List District
  | _, [] => []
  | k, d :: rest =>
    if d.name == "Unassigned" then cloneDistricts newPlan k rest
    else { d with pk := k, version := 0, plan := newPlan } :: cloneDistricts newPlan (k + 1) rest

/-- Outcome of the copyplan view. -/
inductive CopyOutcome where
  /-- `Plan.objects.get(pk=planid)` raised: no such plan. -/
  | notFound
  /-- The can_copy check failed. -/
  | noPermission (msg : String)
  /-- The requesting user already owns a plan with the requested name. -/
  | duplicateName (msg : String)
  /-- The copy succeeded; carries the new plan id. -/
  | ok (newPlanId : Nat)
deriving DecidableEq, Repr

/-- The copyplan view (views.py lines 175-243): permission check, then the
duplicate-name check against the requesting user's plans, then a new plan
row and a clone of every district resolved at the source plan's current
version except `Unassigned`, each cloned at version 0 into the new plan. -/
def copyplan (st : CopyState) (user planid : Nat) (newname : String) (shared : Bool)
    (canCopy : Bool) : CopyOutcome × CopyState :=
  match st.plans.find? (fun p => p.id == planid) with
  | none => (.notFound, st)
  | some p =>
    if !canCopy then
      (.noPermission "User doesn\x27t have permission to copy this model", st)
    else if 0 < (st.plans.filter (fun q => q.name == newname && q.owner == user)).length then
      (.duplicateName "You already have a plan named that. Please pick a unique name.", st)
    else
      let newId := freshPlanId st.plans
      let newPlan : PlanRec :=
        { id := newId, name := newname, owner := user, version := 0,
          legislative_body := p.legislative_body, is_shared := shared }
      let clones := cloneDistricts newId (freshPk st.districts)
        (get_districts_at_version st.districts p.id p.version)
      (.ok newId, { plans := st.plans ++ [newPlan], districts := st.districts ++ clones })

/-- The snapshot fields of a district row other than its primary key:
district_id, name, geometry, has_geom, characteristics, version, plan. -/
def districtData (d : District) : Nat × String × Nat × Bool × List CharRow × Nat × Nat :=
  (d.district_id, d.name, d.geom, d.has_geom, d.chars, d.version, d.plan)

/-- The contiguity section of getcompliance (views.py lines 1440-1454):
resolve the districts at the requested version and count those whose
contiguity result is 0, excluding `Unassigned`.  The Contiguity calculator
lives in redistricting/calculators.py, which is not under src/, so its
result is an arbitrary parameter function. -/
def getcompliance_noncontiguous (contig : District → Int) (rows : List District)
    (planid V : Nat) : Nat :=
  (get_districts_at_version rows planid V).foldl
    (fun noncontiguous d =>
      if contig d = 0 ∧ ¬(d.name = "Unassigned") then noncontiguous + 1 else noncontiguous)
    0

/-- One iteration of the population-target loop of getcompliance
(views.py lines 1457-1472): fetch the characteristic for the target's
subject (any exception skips the district), truncate the number with
`int()`, and count it when it falls strictly outside the closed band
around the target value. -/
def target_miss_step (t : Target) (noncompliant : Nat) (d : District) : Nat :=
  match getChar d.chars t.subject with
  | none => noncompliant
  | some c =>
    let allowance := t.value * t.range1
    let number : ℚ := (ratTrunc c.number : ℚ)
    if number < t.value - allowance ∨ number > t.value + allowance then noncompliant + 1
    else noncompliant

/-- The population-target count of getcompliance for one target. -/
def getcompliance_target_misses (t : Target) (districts : List District) : Nat :=
  districts.foldl (target_miss_step t) 0

/-- The predicate the target loop actually tests for one district: the
`int()`-truncated characteristic value lies strictly outside the closed
interval around the target value. -/
def target_miss_pred (t : Target) (d : District) : Bool :=
  match getChar d.chars t.subject with
  | none => false
  | some c =>
    decide ((ratTrunc c.number : ℚ) < t.value - t.value * t.range1
            ∨ (ratTrunc c.number : ℚ) > t.value + t.value * t.range1)

/-- The claim's predicate, exactly as the specification words it: the
characteristic value itself (no truncation) lies strictly outside the
closed interval around the target value. -/
def target_misses_spec (t : Target) (districts : List District) : Nat :=
  districts.countP (fun d =>
    match getChar d.chars t.subject with
    | none => false
    | some c =>
      decide (c.number < t.value - t.value * t.range1
              ∨ c.number > t.value + t.value * t.range1))

/-- The inner loop of the majority-minority section of getcompliance
(views.py lines 1484-1494): iterate the minority subjects in order; a
missing characteristic raises, aborting the whole district (no further
subjects are tallied); otherwise the subject is tallied when the minority
value divided by the population value strictly exceeds one half.  Returns
the list of subjects tallied for this district. -/
def getcompliance_mm_loop : List Nat → List CharRow → ℚ → List Nat
  | [], _, _ => []
  | s :: rest, chars, popv =>
    match getChar chars s with
    | none => []
    | some m =>
      (if m.number / popv > 1 / 2 then [s] else []) ++ getcompliance_mm_loop rest chars popv

/-- The subjects tallied for one district by the majority-minority
section: nothing when the population characteristic is missing, else the
inner loop over the minority subjects. -/
def getcompliance_mm_increments (pop : Nat) (minority : List Nat) (d : District) : List Nat :=
  match getChar d.chars pop with
  | none => []
  | some p => getcompliance_mm_loop minority d.chars p.number

/-- The majority-minority tally reported for subject `s`: the sum over
all districts of the times `s` was tallied. -/
def getcompliance_mm_tally (pop : Nat) (minority : List Nat) (districts : List District)
    (s : Nat) : Nat :=
  districts.foldl (fun n d => n + (getcompliance_mm_increments pop minority d).count s) 0

/-- Whether one district is tallied for subject `s` by the code's loop: it
needs the population characteristic, a characteristic for every minority
subject up to and including `s` in iteration order, and a ratio strictly
above one half at `s`. -/
def mm_code_pred_loop : List Nat → List CharRow → ℚ → Nat → Bool
  | [], _, _, _ => false
  | t :: rest, chars, popv, s =>
    match getChar chars t with
    | none => false
    | some m =>
      if t == s then decide (m.number / popv > 1 / 2)
      else mm_code_pred_loop rest chars popv s

/-- Whether one district is tallied for subject `s` by the code, starting
from the population characteristic. -/
def mm_code_pred (pop : Nat) (minority : List Nat) (s : Nat) (d : District) : Bool :=
  match getChar d.chars pop with
  | none => false
  | some p => mm_code_pred_loop minority d.chars p.number s

/-- The claim's majority-minority count for subject `s`, exactly as the
specification words it: districts having both the population and the
subject characteristic whose ratio strictly exceeds one half. -/
def mm_count_spec (pop : Nat) (districts : List District) (s : Nat) : Nat :=
  districts.countP (fun d =>
    match getChar d.chars pop, getChar d.chars s with
    | some p, some m => decide (m.number / p.number > 1 / 2)
    | _, _ => false)

/-- Lookup of a geounit id in the base-geounit mapping: the district_id
the mapping assigns to it, if any. -/
def lookupId (i : Nat) : List (Nat × Nat) → Option Nat
  | [] => none
  | (g, d) :: ms => if g = i then some d else lookupId i ms

/-- The merge loop of getreport (views.py lines 728-740): walk the id
range in increasing order holding the next not-yet-consumed mapping row;
when its geounit id equals the current id, emit its district_id and
advance, otherwise emit `NA` (modelled as `none`). -/
def assignVec : List Nat → List (Nat × Nat) → List (Option Nat)
  | [], _ => []
  | _ :: rest, [] => none :: assignVec rest []
  | i :: rest, (g, d) :: ms =>
    if g = i then some d :: assignVec rest ms
    else none :: assignVec rest ((g, d) :: ms)

/-- The JSON status assembled by the newdistrict view. -/
structure NDStatus where
  success : Bool
  message : String
  district_id : Option Nat
  version : Option Nat
deriving DecidableEq, Repr

/-- Outcome of `plan.add_geounits` as observed by the newdistrict view. -/
inductive AddOutcome where
  /-- The edit committed, touching this many districts. -/
  | ok (fixed : Nat)
  /-- ValidationError: the max-district-count invariant was violated. -/
  | validationError
  /-- Any other exception. -/
  | otherError
deriving DecidableEq, Repr

/-- The newdistrict view (views.py lines 843-902): with geolevel, geounits
and a truthy district_id present, call add_geounits; a ValidationError is
caught and reported as the max-districts failure message with no success
fields; other exceptions produce the generic failure message. -/
def newdistrict (geolevel : Option Nat) (geounit_ids : Option (List Nat))
    (district_id : Option Nat) (add_result : AddOutcome) (planVersionAfter : Nat) : NDStatus :=
  match geolevel, geounit_ids, district_id with
  | some _, some _, some did =>
    if did = 0 then
      { success := false, message := "Must specify name, geolevel, and geounit ids for new district.",
        district_id := none, version := none }
    else
      match add_result with
      | .ok _ =>
        { success := true, message := "Created 1 new district",
          district_id := some did, version := some planVersionAfter }
      | .validationError =>
        { success := false, message := "Reached Max districts already",
          district_id := none, version := none }
      | .otherError =>
        { success := false, message := "Couldn\x27t save new district.",
          district_id := none, version := none }
  | _, _, _ =>
    { success := false, message := "Must specify name, geolevel, and geounit ids for new district.",
      district_id := none, version := none }

/-- What the getreport view does first (views.py lines 648-655). -/
inductive ReportPhase where
  /-- An early JSON status returned before any report work. -/
  | earlyStatus (success : Bool) (message : String)
  /-- The view proceeds to generate the report. -/
  | generate
deriving DecidableEq, Repr

/-- The readiness guard at the top of getreport: when the BARD workspace
is not loaded, return a failure status immediately, with the turned-off
message when reporting is disabled and the not-ready message otherwise. -/
def getreport_entry (bardWorkSpaceLoaded REPORTS_ENABLED : Bool) : ReportPhase :=
  if !bardWorkSpaceLoaded then
    .earlyStatus false
      (if !REPORTS_ENABLED then "Reports functionality is turned off."
       else "Reports functionality is not ready. Please try again later.")
  else .generate

/-! Concrete records used by counterexamples and witnesses. -/

/-- A plan owned by user 7, used by the C1 counterexample. -/
def c1Plan : PlanRec :=
  { id := 1, name := "plan one", owner := 7, version := 0, legislative_body := 1, is_shared := false }

/-- An unlocked district snapshot of that plan, used by the C1 counterexample. -/
def c1District : District :=
  { pk := 1, plan := 1, district_id := 1, version := 0, name := "District 1",
    geom := 5, has_geom := true, is_locked := false, chars := [] }

/-- A plan with head version 2 owned by user 7, used by the C2 witness. -/
def w2Plan : PlanRec :=
  { id := 1, name := "plan one", owner := 7, version := 2, legislative_body := 1, is_shared := false }

/-- District table for the C2 witness: district 1 at versions 0 and 2, and
district 2 at version 0. -/
def w2Dists : List District :=
  [{ pk := 1, plan := 1, district_id := 1, version := 0, name := "District 1",
     geom := 5, has_geom := true, is_locked := false, chars := [] },
   { pk := 2, plan := 1, district_id := 1, version := 2, name := "District 1",
     geom := 6, has_geom := true, is_locked := false, chars := [] },
   { pk := 3, plan := 1, district_id := 2, version := 0, name := "District 2",
     geom := 7, has_geom := true, is_locked := false, chars := [] }]

/-- The row the C2 witness expects the lock to land on: district 1 at
version 2. -/
def w2Top : District :=
  { pk := 2, plan := 1, district_id := 1, version := 2, name := "District 1",
    geom := 6, has_geom := true, is_locked := false, chars := [] }

/-- Copy state for the C3 witness: one plan at head version 1 with an
Unassigned row and two snapshots of district 1. -/
def w3State : CopyState :=
  { plans := [{ id := 1, name := "orig", owner := 7, version := 1, legislative_body := 1,
                is_shared := false }],
    districts :=
      [{ pk := 1, plan := 1, district_id := 0, version := 0, name := "Unassigned",
         geom := 0, has_geom := false, is_locked := false, chars := [] },
       { pk := 2, plan := 1, district_id := 1, version := 0, name := "District 1",
         geom := 3, has_geom := true, is_locked := false, chars := [⟨1, 5⟩] },
       { pk := 3, plan := 1, district_id := 1, version := 1, name := "District 1",
         geom := 4, has_geom := true, is_locked := true, chars := [⟨1, 6⟩] }] }

/-- Target for the C5 counterexample: subject 1, ideal value 100,
range1 five percent, so the closed band is [95, 105]. -/
def c5Target : Target := { subject := 1, value := 100, range1 := 1 / 20, range2 := 1 / 10 }

/-- The rational 211/2 = 105.5, given in lowest terms so that its
numerator and denominator are definitionally available. -/
def c5Number : ℚ := ⟨211, 2, by decide, by decide⟩

/-- District for the C5 counterexample: its characteristic for subject 1
is 105.5, strictly outside the band, but `int()` truncates it to 105,
inside the band. -/
def c5District : District :=
  { pk := 1, plan := 1, district_id := 1, version := 0, name := "District 1",
    geom := 0, has_geom := true, is_locked := false, chars := [⟨1, c5Number⟩] }

/-- District for the C6 counterexample: population subject 2 has value 10,
minority subject 1 has value 9 (a 90 percent share), and there is no
characteristic for minority subject 0. -/
def c6District : District :=
  { pk := 1, plan := 1, district_id := 1, version := 0, name := "District 1",
    geom := 0, has_geom := true, is_locked := false, chars := [⟨2, 10⟩, ⟨1, 9⟩] }

/-- Copy state for the C10 witness: user 7 already owns a plan named
"taken". -/
def w10State : CopyState :=
  { plans := [{ id := 1, name := "taken", owner := 7, version := 0, legislative_body := 1,
                is_shared := false }],
    districts :=
      [{ pk := 1, plan := 1, district_id := 0, version := 0, name := "Unassigned",
         geom := 0, has_geom := false, is_locked := false, chars := [] }] }

/-! Helper lemmas shared between claims. -/

/-- A foldl that conditionally increments a counter counts the elements
satisfying the predicate. -/
theorem foldl_step_count {α : Type} (f : Nat → α → Nat) (p : α → Bool)
    (hf : ∀ n a, f n a = if p a then n + 1 else n) :
    ∀ (l : List α) (n : Nat), l.foldl f n = n + l.countP p := by
  intro l
  induction l with
  | nil => intro n; simp
  | cons a t ih =>
    intro n
    rw [List.foldl_cons, hf, List.countP_cons]
    cases h : p a <;> simp [h, ih] <;> omega

/-- A foldl that adds a zero-or-one contribution per element counts the
elements satisfying the predicate. -/
theorem foldl_add_count {α : Type} (c : α → Nat) (p : α → Bool)
    (hc : ∀ a, c a = if p a then 1 else 0) :
    ∀ (l : List α) (n : Nat), l.foldl (fun n a => n + c a) n = n + l.countP p := by
  intro l
  induction l with
  | nil => intro n; simp
  | cons a t ih =>
    intro n
    rw [List.foldl_cons, hc, List.countP_cons]
    cases h : p a <;> simp [h, ih] <;> omega

/-- maxLockRow only returns `none` on the empty list. -/
theorem maxLockRow_eq_none : ∀ (l : List District), maxLockRow l = none → l = [] := by
  intro l
  cases l with
  | nil => intro _; rfl
  | cons d rest =>
    intro h
    simp only [maxLockRow] at h
    cases hr : maxLockRow rest <;> rw [hr] at h <;> simp at h
    split at h <;> simp at h

/-- maxLockRow returns an element of the list. -/
theorem maxLockRow_mem : ∀ (l : List District) (t : District), maxLockRow l = some t → t ∈ l := by
  intro l
  induction l with
  | nil => intro t h; simp [maxLockRow] at h
  | cons d rest ih =>
    intro t h
    simp only [maxLockRow] at h
    cases hr : maxLockRow rest with
    | none =>
      rw [hr] at h
      dsimp only at h
      simp only [Option.some.injEq] at h
      exact h ▸ List.mem_cons_self d rest
    | some b =>
      rw [hr] at h
      dsimp only at h
      by_cases hv : d.version < b.version
      · rw [if_pos hv] at h
        simp only [Option.some.injEq] at h
        exact List.mem_cons_of_mem _ (h ▸ ih b hr)
      · rw [if_neg hv] at h
        simp only [Option.some.injEq] at h
        exact h ▸ List.mem_cons_self d rest

/-- maxLockRow returns a row whose version bounds every candidate. -/
theorem maxLockRow_le : ∀ (l : List District) (t : District), maxLockRow l = some t →
    ∀ c ∈ l, c.version ≤ t.version := by
  intro l
  induction l with
  | nil => intro t _ c hc; simp at hc
  | cons d rest ih =>
    intro t h c hc
    simp only [maxLockRow] at h
    cases hr : maxLockRow rest with
    | none =>
      rw [hr] at h
      dsimp only at h
      simp only [Option.some.injEq] at h
      have : rest = [] := maxLockRow_eq_none rest hr
      subst this
      simp at hc
      subst hc
      exact h ▸ Nat.le_refl _
    | some b =>
      rw [hr] at h
      dsimp only at h
      rcases List.mem_cons.mp hc with hcd | hcr
      · subst hcd
        by_cases hv : c.version < b.version
        · rw [if_pos hv] at h
          simp only [Option.some.injEq] at h
          exact h ▸ Nat.le_of_lt hv
        · rw [if_neg hv] at h
          simp only [Option.some.injEq] at h
          exact h ▸ Nat.le_refl _
      · have hcb := ih b hr c hcr
        by_cases hv : d.version < b.version
        · rw [if_pos hv] at h
          simp only [Option.some.injEq] at h
          exact h ▸ hcb
        · rw [if_neg hv] at h
          simp only [Option.some.injEq] at h
          exact h ▸ Nat.le_trans hcb (Nat.le_of_not_lt hv)

/-- The clone loop produces, up to the fresh primary keys, exactly the
non-Unassigned inputs with version 0 and the new plan id. -/
theorem cloneDistricts_spec (np : Nat) : ∀ (k : Nat) (ds : List District),
    (cloneDistricts np k ds).map districtData
      = (ds.filter (fun d => !(d.name == "Unassigned"))).map
          (fun d => (d.district_id, d.name, d.geom, d.has_geom, d.chars, 0, np)) := by
  intro k ds
  induction ds generalizing k with
  | nil => rfl
  | cons d rest ih =>
    cases h : (d.name == "Unassigned") with
    | true => simp [cloneDistricts, List.filter_cons, h, ih]
    | false => simp [cloneDistricts, List.filter_cons, h, ih, districtData]

/-- Every subject tallied by the inner majority-minority loop comes from
the minority list. -/
theorem mem_mm_loop : ∀ (l : List Nat) (chars : List CharRow) (popv : ℚ) (x : Nat),
    x ∈ getcompliance_mm_loop l chars popv → x ∈ l := by
  intro l
  induction l with
  | nil => intro chars popv x h; simp [getcompliance_mm_loop] at h
  | cons a t ih =>
    intro chars popv x h
    simp only [getcompliance_mm_loop] at h
    cases hg : getChar chars a with
    | none => rw [hg] at h; simp at h
    | some m =>
      rw [hg] at h
      dsimp only at h
      rw [List.mem_append] at h
      rcases h with h | h
      · by_cases hr : m.number / popv > 1 / 2
        · rw [if_pos hr] at h
          simp at h
          simp [h]
        · rw [if_neg hr] at h
          simp at h
      · exact List.mem_cons_of_mem _ (ih chars popv x h)

/-- On a duplicate-free minority list, the inner loop tallies a subject
at most once, and does so exactly when the code predicate holds. -/
theorem mm_loop_count (s : Nat) : ∀ (l : List Nat) (chars : List CharRow) (popv : ℚ),
    l.Nodup →
    (getcompliance_mm_loop l chars popv).count s
      = if mm_code_pred_loop l chars popv s then 1 else 0 := by
  intro l
  induction l with
  | nil => intro chars popv _; simp [getcompliance_mm_loop, mm_code_pred_loop]
  | cons a t ih =>
    intro chars popv hnd
    rw [List.nodup_cons] at hnd
    obtain ⟨hat, hnt⟩ := hnd
    cases hg : getChar chars a with
    | none => simp [getcompliance_mm_loop, mm_code_pred_loop, hg]
    | some m =>
      simp only [getcompliance_mm_loop, mm_code_pred_loop, hg]
      rw [List.count_append]
      by_cases has : a = s
      · subst has
        have hz : (getcompliance_mm_loop t chars popv).count a = 0 :=
          List.count_eq_zero.mpr (fun hmem => hat (mem_mm_loop t chars popv a hmem))
        rw [hz]
        simp only [Nat.add_zero, beq_self_eq_true, if_true, decide_eq_true_eq]
        split
        next h => simp [h]
        next h => simp [h]
      · have hne : (a == s) = false := beq_false_of_ne has
        have hca : List.count s [a] = 0 :=
          List.count_eq_zero.mpr (fun hmem => has (List.mem_singleton.mp hmem).symm)
        rw [ih chars popv hnt]
        have h0 : List.count s (if m.number / popv > 1 / 2 then [a] else []) = 0 := by
          split
          · exact hca
          · simp
        rw [h0]
        simp [hne]

/-- Per district, the majority-minority contribution for subject `s` is
one when the code predicate holds and zero otherwise. -/
theorem mm_increments_count (pop : Nat) (minority : List Nat) (s : Nat) (d : District)
    (h : minority.Nodup) :
    (getcompliance_mm_increments pop minority d).count s
      = if mm_code_pred pop minority s d then 1 else 0 := by
  unfold getcompliance_mm_increments mm_code_pred
  cases hg : getChar d.chars pop with
  | none => simp
  | some p => exact mm_loop_count s minority d.chars p.number h

/-- A lookup outside the mapping keys yields none. -/
theorem lookupId_eq_none (i : Nat) : ∀ (l : List (Nat × Nat)),
    i ∉ l.map Prod.fst → lookupId i l = none := by
  intro l
  induction l with
  | nil => intro _; rfl
  | cons p ms ih =>
    intro h
    obtain ⟨g, d⟩ := p
    simp only [List.map_cons, List.mem_cons] at h
    push_neg at h
    obtain ⟨h1, h2⟩ := h
    simp only [lookupId]
    rw [if_neg (fun hgi => h1 hgi.symm)]
    exact ih h2

/-- The merge loop of getreport agrees with pointwise lookup whenever the
id sequence is strictly increasing, the mapping keys are strictly
increasing, and every mapping key occurs among the ids. -/
theorem assignVec_eq_lookup : ∀ (ids : List Nat) (mapping : List (Nat × Nat)),
    ids.Pairwise (· < ·) → (mapping.map Prod.fst).Pairwise (· < ·) →
    (∀ p ∈ mapping, p.1 ∈ ids) →
    assignVec ids mapping = ids.map (fun j => lookupId j mapping) := by
  intro ids
  induction ids with
  | nil => intro mapping _ _ _; rfl
  | cons i rest ih =>
    intro mapping hids hmap hsub
    rw [List.pairwise_cons] at hids
    obtain ⟨hi, hrest⟩ := hids
    cases mapping with
    | nil =>
      simp only [assignVec, List.map_cons, lookupId]
      exact congrArg _ (ih [] hrest (by simp) (by simp))
    | cons p ms =>
      obtain ⟨g, d⟩ := p
      rw [List.map_cons, List.pairwise_cons] at hmap
      obtain ⟨hg, hms⟩ := hmap
      by_cases hgi : g = i
      · subst hgi
        simp only [assignVec, List.map_cons, lookupId, if_true]
        refine congrArg _ ?_
        have hsub' : ∀ p ∈ ms, p.1 ∈ rest := by
          intro p hp
          have hmem : p.1 ∈ g :: rest := hsub p (List.mem_cons_of_mem _ hp)
          have hgp : g < p.1 := hg p.1 (List.mem_map.mpr ⟨p, hp, rfl⟩)
          rcases List.mem_cons.mp hmem with he | hm
          · exact absurd he (Nat.ne_of_gt hgp)
          · exact hm
        rw [ih ms hrest hms hsub']
        refine List.map_congr_left ?_
        intro j hj
        have hgj : g < j := hi j hj
        rw [if_neg (Nat.ne_of_lt hgj)]
      · have hgrest : g ∈ rest := by
          have hmem : g ∈ i :: rest := hsub (g, d) (List.mem_cons_self _ _)
          rcases List.mem_cons.mp hmem with he | hm
          · exact absurd he hgi
          · exact hm
        have hig : i < g := hi g hgrest
        have hnotms : i ∉ ms.map Prod.fst := by
          intro hin
          have := hg i hin
          omega
        simp only [assignVec]
        rw [if_neg hgi]
        simp only [List.map_cons, lookupId]
        rw [if_neg hgi]
        rw [lookupId_eq_none i ms hnotms]
        refine congrArg _ ?_
        have hsub' : ∀ p ∈ (g, d) :: ms, p.1 ∈ rest := by
          intro p hp
          rcases List.mem_cons.mp hp with he | hm
          · subst he; exact hgrest
          · have hmem : p.1 ∈ i :: rest := hsub p (List.mem_cons_of_mem _ hm)
            have hgp : g < p.1 := hg p.1 (List.mem_map.mpr ⟨p, hm, rfl⟩)
            rcases List.mem_cons.mp hmem with he2 | hm2
            · omega
            · exact hm2
        exact ih ((g, d) :: ms) hrest (by rw [List.map_cons, List.pairwise_cons]; exact ⟨hg, hms⟩) hsub'

/-! Claim theorems. -/

/-- C1 counterexample: the setdistrictlock view operation does update an
already-persisted District row.  On a concrete table, locking district 1
rewrites the existing row in place (the original row is gone from the
table and no row was appended), refuting the claim that no operation ever
updates an existing District row. -/
theorem setdistrictlock_updates_existing_row :
    (setdistrictlock [c1Plan] [c1District] 7 1 1 0 true).2
        = [{ c1District with is_locked := true }]
    ∧ c1District ∉ (setdistrictlock [c1Plan] [c1District] 7 1 1 0 true).2
    ∧ (setdistrictlock [c1Plan] [c1District] 7 1 1 0 true).2.length = 1 := by
  refine ⟨rfl, ?_, rfl⟩
  decide

/-- C1 amended: District rows are never deleted and the copy operation
only appends rows; the single in-place mutation in the views is the lock
view, which either leaves the table unchanged or rewrites exactly the
is_locked flag of one existing row, keyed by its primary key (geometry,
stats, name and version of persisted rows never change). -/
theorem district_rows_append_only_amended :
    (∀ (plans : List PlanRec) (dists : List District) (u pid did V : Nat) (lock : Bool),
      (setdistrictlock plans dists u pid did V lock).2 = dists
      ∨ ∃ k, (setdistrictlock plans dists u pid did V lock).2
          = dists.map (fun d => if d.pk = k then { d with is_locked := lock } else d))
    ∧ (∀ (st : CopyState) (u pid : Nat) (nm : String) (sh cc : Bool),
      ∃ tail, (copyplan st u pid nm sh cc).2.districts = st.districts ++ tail) := by
  constructor
  · intro plans dists u pid did V lock
    cases hf : plans.find? (fun p => p.id == pid) with
    | none => left; simp [setdistrictlock, hf]
    | some plan =>
      cases hm : maxLockRow (lockCandidates dists pid did V) with
      | none => left; simp [setdistrictlock, hf, hm]
      | some t =>
        by_cases h : plan.owner ≠ u
        · left; simp [setdistrictlock, hf, hm, h]
        · right; exact ⟨t.pk, by simp [setdistrictlock, hf, hm, h]⟩
  · intro st u pid nm sh cc
    cases hf : st.plans.find? (fun p => p.id == pid) with
    | none => exact ⟨[], by simp [copyplan, hf]⟩
    | some p =>
      cases cc with
      | false => exact ⟨[], by simp [copyplan, hf]⟩
      | true =>
        by_cases hd : 0 < (st.plans.filter (fun q => q.name == nm && q.owner == u)).length
        · exact ⟨[], by simp [copyplan, hf, hd]⟩
        · exact ⟨cloneDistricts (freshPlanId st.plans) (freshPk st.districts)
            (get_districts_at_version st.districts p.id p.version),
            by simp [copyplan, hf, hd]⟩

/-- C2: setdistrictlock applies the flag to exactly the candidate row with
the greatest version at or below V, leaving every other row untouched, and
returns Forbidden with an unchanged table for any requester who is not the
plan owner. -/
theorem setdistrictlock_correct (plans : List PlanRec) (dists : List District)
    (requester planid did V : Nat) (lock : Bool) (plan : PlanRec) (t : District)
    (hfind : plans.find? (fun p => p.id == planid) = some plan)
    (hmax : maxLockRow (lockCandidates dists planid did V) = some t)
    (hver : (lockCandidates dists planid did V).Pairwise (fun a b => a.version ≠ b.version)) :
    (plan.owner ≠ requester →
      setdistrictlock plans dists requester planid did V lock = (.forbidden, dists))
    ∧ (plan.owner = requester →
      t ∈ lockCandidates dists planid did V
      ∧ t.version ≤ V ∧ t.plan = planid ∧ t.district_id = did
      ∧ (∀ c ∈ lockCandidates dists planid did V, c ≠ t → c.version < t.version)
      ∧ (setdistrictlock plans dists requester planid did V lock).2
          = dists.map (fun d => if d.pk = t.pk then { d with is_locked := lock } else d)) := by
  have hmem : t ∈ lockCandidates dists planid did V := maxLockRow_mem _ t hmax
  have hprops := List.mem_filter.mp hmem
  have hflags := hprops.2
  simp only [Bool.and_eq_true, beq_iff_eq, decide_eq_true_eq] at hflags
  constructor
  · intro h
    unfold setdistrictlock
    rw [hfind, hmax]
    dsimp only
    rw [if_pos h]
  · intro h
    refine ⟨hmem, hflags.2, hflags.1.1, hflags.1.2, ?_, ?_⟩
    · intro c hc hne
      have hle := maxLockRow_le _ t hmax c hc
      have hsym : Symmetric (fun a b : District => a.version ≠ b.version) :=
        fun _ _ hab => hab.symm
      have hne' : c.version ≠ t.version := hver.forall hsym hc hmem hne
      exact Nat.lt_of_le_of_ne hle hne'
    · unfold setdistrictlock
      rw [hfind, hmax]
      dsimp only
      rw [if_neg (fun hko => hko h)]

/-- C2 witness: on a concrete plan owned by user 7 with two snapshots of
district 1, the lock lands on the version-2 row and only that row's
is_locked changes. -/
theorem setdistrictlock_correct_witness :
    ([w2Plan].find? (fun p => p.id == 1) = some w2Plan)
    ∧ maxLockRow (lockCandidates w2Dists 1 1 5) = some w2Top
    ∧ (lockCandidates w2Dists 1 1 5).Pairwise (fun a b => a.version ≠ b.version)
    ∧ (setdistrictlock [w2Plan] w2Dists 7 1 1 5 true).2
        = w2Dists.map (fun d => if d.pk = w2Top.pk then { d with is_locked := true } else d) :=
  ⟨by decide, by decide, by decide,
   ((setdistrictlock_correct [w2Plan] w2Dists 7 1 1 5 true w2Plan w2Top
      (by decide) (by decide) (by decide)).2 rfl).2.2.2.2.2⟩

/-- C4: for any contiguity calculator, the compliance report's
non-contiguity count equals the number of districts resolved at the
requested version whose contiguity result is 0, excluding districts named
Unassigned. -/
theorem getcompliance_noncontiguous_count (contig : District → Int) (rows : List District)
    (planid V : Nat) :
    getcompliance_noncontiguous contig rows planid V
      = ((get_districts_at_version rows planid V).filter
          (fun d => decide (contig d = 0) && !(d.name == "Unassigned"))).length := by
  unfold getcompliance_noncontiguous
  rw [foldl_step_count _ (fun d => decide (contig d = 0) && !(d.name == "Unassigned"))
      ?hf (get_districts_at_version rows planid V) 0, Nat.zero_add,
      List.countP_eq_length_filter]
  case hf =>
    intro n d
    by_cases h1 : contig d = 0 <;> by_cases h2 : d.name = "Unassigned" <;> simp [h1, h2]

/-- C3: with the permission and duplicate-name checks passed, copyplan
appends to the district table exactly the clones of the districts resolved
at the source plan's current version; up to fresh primary keys the clones
are exactly the resolved districts other than Unassigned, with version 0,
owned by the new plan, and with characteristics and geometry carried over
unchanged. -/
theorem copyplan_clones_latest (st : CopyState) (user pid : Nat) (newname : String)
    (shared : Bool) (p : PlanRec)
    (hp : st.plans.find? (fun q => q.id == pid) = some p)
    (hdup : (st.plans.filter (fun q => q.name == newname && q.owner == user)).length = 0) :
    (copyplan st user pid newname shared true).2.districts
      = st.districts
        ++ cloneDistricts (freshPlanId st.plans) (freshPk st.districts)
            (get_districts_at_version st.districts p.id p.version)
    ∧ (cloneDistricts (freshPlanId st.plans) (freshPk st.districts)
        (get_districts_at_version st.districts p.id p.version)).map districtData
      = ((get_districts_at_version st.districts p.id p.version).filter
          (fun d => !(d.name == "Unassigned"))).map
          (fun d => (d.district_id, d.name, d.geom, d.has_geom, d.chars, 0,
                     freshPlanId st.plans)) := by
  constructor
  · simp [copyplan, hp, hdup]
  · exact cloneDistricts_spec (freshPlanId st.plans) (freshPk st.districts)
      (get_districts_at_version st.districts p.id p.version)

/-- C3 witness: copying a concrete plan with two snapshots of district 1
and an Unassigned row clones exactly the latest snapshot of district 1 at
version 0 into the new plan, characteristics included. -/
theorem copyplan_clones_latest_witness :
    (w3State.plans.find? (fun q => q.id == 1)
        = some { id := 1, name := "orig", owner := 7, version := 1, legislative_body := 1,
                 is_shared := false })
    ∧ (w3State.plans.filter (fun q => q.name == "mycopy" && q.owner == 8)).length = 0
    ∧ (copyplan w3State 8 1 "mycopy" false true).2.districts
        = w3State.districts
          ++ cloneDistricts (freshPlanId w3State.plans) (freshPk w3State.districts)
              (get_districts_at_version w3State.districts 1 1) :=
  ⟨by decide, by decide,
   (copyplan_clones_latest w3State 8 1 "mycopy" false
      { id := 1, name := "orig", owner := 7, version := 1, legislative_body := 1,
        is_shared := false }
      (by decide) (by decide)).1⟩

/-- C5 counterexample: a district whose characteristic for the target
subject is 105.5 against the closed band [95, 105] is, as the claim reads
it, strictly outside the band and so should be counted; the code counts
nothing because it compares the Python int() truncation 105, which is
inside the band. -/
theorem target_misses_truncation_counterexample :
    getcompliance_target_misses c5Target [c5District] = 0
    ∧ target_misses_spec c5Target [c5District] = 1 := by
  have hget : getChar c5District.chars c5Target.subject = some ⟨1, c5Number⟩ := rfl
  have hrt : ratTrunc c5Number = 105 := by decide
  have hval : c5Target.value = 100 := rfl
  have hr1 : c5Target.range1 = 1 / 20 := rfl
  have hq : c5Number = 211 / 2 := by
    have h := Rat.num_div_den c5Number
    rw [show c5Number.num = (211 : Int) from rfl, show c5Number.den = 2 from rfl] at h
    push_cast at h
    exact h.symm
  constructor
  · show List.foldl (target_miss_step c5Target) 0 [c5District] = 0
    rw [List.foldl_cons, List.foldl_nil]
    unfold target_miss_step
    rw [hget]
    dsimp only
    rw [hrt, hval, hr1]
    rw [if_neg ?hno]
    case hno =>
      push_neg
      constructor <;> push_cast <;> norm_num
  · show List.countP _ [c5District] = 1
    rw [List.countP_cons, List.countP_nil]
    rw [hget]
    dsimp only
    rw [hval, hr1, hq]
    rw [decide_eq_true (Or.inr (by norm_num))]
    simp

/-- C5 amended: the population-target section counts exactly those
districts having a characteristic for the target subject whose value,
first truncated toward zero to an integer by Python int(), lies strictly
outside the closed interval around the target value. -/
theorem getcompliance_target_misses_eq (t : Target) (ds : List District) :
    getcompliance_target_misses t ds = ds.countP (target_miss_pred t) := by
  unfold getcompliance_target_misses
  rw [foldl_step_count (target_miss_step t) (target_miss_pred t) ?hf ds 0, Nat.zero_add]
  case hf =>
    intro n d
    unfold target_miss_step target_miss_pred
    cases hg : getChar d.chars t.subject with
    | none => simp
    | some c =>
      dsimp only
      by_cases hP : (ratTrunc c.number : ℚ) < t.value - t.value * t.range1
          ∨ (ratTrunc c.number : ℚ) > t.value + t.value * t.range1
      · rw [if_pos hP, if_pos (by exact decide_eq_true hP)]
      · rw [if_neg hP, if_neg (by simpa using hP)]

/-- C6 counterexample: with minority subjects iterated in the order
[0, 1], a district that has the population characteristic (value 10) and
a characteristic for subject 1 (value 9, a share strictly above one half)
but no characteristic for subject 0 should, as the claim reads, be counted
for subject 1; the code tallies nothing for subject 1 because the missing
subject-0 characteristic raises and aborts the whole district. -/
theorem mm_count_counterexample :
    getcompliance_mm_tally 2 [0, 1] [c6District] 1 = 0
    ∧ mm_count_spec 2 [c6District] 1 = 1 := by
  constructor
  · decide
  · have h2 : getChar c6District.chars 2 = some ⟨2, 10⟩ := rfl
    have h1 : getChar c6District.chars 1 = some ⟨1, 9⟩ := rfl
    have hr : (9 : ℚ) / 10 > 1 / 2 := by norm_num
    rw [mm_count_spec, List.countP_cons, List.countP_nil]
    simp [h2, h1]
    norm_num

/-- C6 amended: for a duplicate-free minority-subject order, the
majority-minority tally for subject s counts exactly the districts that
have the population characteristic, have a characteristic for every
minority subject up to and including s in iteration order, and whose
value for s divided by the population value strictly exceeds one half; a
district missing any earlier minority characteristic is not counted for s
even when its own pair of characteristics is present. -/
theorem getcompliance_mm_tally_eq (pop : Nat) (minority : List Nat) (ds : List District)
    (s : Nat) (h : minority.Nodup) :
    getcompliance_mm_tally pop minority ds s
      = ds.countP (fun d => mm_code_pred pop minority s d) := by
  unfold getcompliance_mm_tally
  rw [foldl_add_count (fun d => (getcompliance_mm_increments pop minority d).count s)
      (fun d => mm_code_pred pop minority s d)
      (fun d => mm_increments_count pop minority s d h) ds 0, Nat.zero_add]

/-- C6 amended witness: evaluating the tally on the counterexample
district with minority order [0, 1] for subject 1. -/
theorem getcompliance_mm_tally_eq_witness :
    ([0, 1] : List Nat).Nodup
    ∧ getcompliance_mm_tally 2 [0, 1] [c6District] 1
        = [c6District].countP (fun d => mm_code_pred 2 [0, 1] 1 d) :=
  ⟨by decide, getcompliance_mm_tally_eq 2 [0, 1] [c6District] 1 (by decide)⟩

/-- C7: for a base-geounit mapping sorted by geounit id with distinct ids
all lying between the minimum and maximum base-geolevel ids, the report
view's merge loop produces, in increasing id order, the assigned
district_id for every id present in the mapping and NA (none) for every
id absent from it. -/
theorem getreport_assignment_vector (mapping : List (Nat × Nat)) (minId maxId : Nat)
    (hsorted : (mapping.map Prod.fst).Pairwise (· < ·))
    (hrange : ∀ p ∈ mapping, minId ≤ p.1 ∧ p.1 ≤ maxId) :
    assignVec (List.range' minId (maxId + 1 - minId)) mapping
      = (List.range' minId (maxId + 1 - minId)).map (fun i => lookupId i mapping) := by
  apply assignVec_eq_lookup
  · exact List.pairwise_lt_range' minId (maxId + 1 - minId)
  · exact hsorted
  · intro p hp
    have h := hrange p hp
    rw [List.mem_range'_1]
    omega

/-- C7 witness: ids 1..3 with geounit 1 in district 5 and geounit 3 in
district 6 produce the vector [5, NA, 6]. -/
theorem getreport_assignment_vector_witness :
    (([(1, 5), (3, 6)] : List (Nat × Nat)).map Prod.fst).Pairwise (· < ·)
    ∧ (∀ p ∈ ([(1, 5), (3, 6)] : List (Nat × Nat)), 1 ≤ p.1 ∧ p.1 ≤ 3)
    ∧ assignVec (List.range' 1 (3 + 1 - 1)) [(1, 5), (3, 6)]
        = (List.range' 1 (3 + 1 - 1)).map (fun i => lookupId i [(1, 5), (3, 6)]) :=
  ⟨by decide, by decide,
   getreport_assignment_vector [(1, 5), (3, 6)] 1 3 (by decide) (by decide)⟩

/-- C8: when add_geounits raises ValidationError, the newdistrict view
reports failure with the max-districts message and no district_id or
version fields, instead of propagating the exception. -/
theorem newdistrict_max_districts (g : Nat) (gs : List Nat) (did v : Nat) (h : did ≠ 0) :
    newdistrict (some g) (some gs) (some did) .validationError v
      = { success := false, message := "Reached Max districts already",
          district_id := none, version := none } := by
  simp [newdistrict, h]

/-- C8 witness: concrete parameters hitting the ValidationError branch. -/
theorem newdistrict_max_districts_witness :
    (3 : Nat) ≠ 0
    ∧ newdistrict (some 1) (some [4, 5]) (some 3) .validationError 7
        = { success := false, message := "Reached Max districts already",
            district_id := none, version := none } :=
  ⟨by decide, newdistrict_max_districts 1 [4, 5] 3 7 (by decide)⟩

/-- C9: whenever the BARD workspace is not loaded, getreport returns an
early failure status, with the turned-off message when reporting is
disabled and the retryable not-ready message otherwise, and never reaches
report generation. -/
theorem getreport_not_ready (enabled : Bool) :
    getreport_entry false enabled
      = .earlyStatus false
          (if enabled then "Reports functionality is not ready. Please try again later."
           else "Reports functionality is turned off.")
    ∧ getreport_entry false enabled ≠ .generate := by
  cases enabled
  · exact ⟨rfl, by decide⟩
  · exact ⟨rfl, by decide⟩

/-- C10: when the requesting user already owns a plan with the requested
copy name, copyplan returns the duplicate-name failure and neither a plan
row nor any district row is created (the state is unchanged). -/
theorem copyplan_duplicate_name (st : CopyState) (user pid : Nat) (newname : String)
    (shared : Bool) (p : PlanRec)
    (hp : st.plans.find? (fun q => q.id == pid) = some p)
    (q : PlanRec) (hq : q ∈ st.plans) (hname : q.name = newname) (howner : q.owner = user) :
    copyplan st user pid newname shared true
      = (.duplicateName "You already have a plan named that. Please pick a unique name.", st) := by
  have hmem : q ∈ st.plans.filter (fun r => r.name == newname && r.owner == user) := by
    rw [List.mem_filter]
    refine ⟨hq, ?_⟩
    simp [hname, howner]
  have hpos : 0 < (st.plans.filter (fun r => r.name == newname && r.owner == user)).length :=
    List.length_pos.mpr (List.ne_nil_of_mem hmem)
  simp [copyplan, hp, hpos]

/-- C10 witness: user 7 already owns a plan named "taken"; requesting a
copy under that name fails with the duplicate-name message and leaves the
state untouched. -/
theorem copyplan_duplicate_name_witness :
    (w10State.plans.find? (fun q => q.id == 1)
        = some { id := 1, name := "taken", owner := 7, version := 0, legislative_body := 1,
                 is_shared := false })
    ∧ ({ id := 1, name := "taken", owner := 7, version := 0, legislative_body := 1,
         is_shared := false } : PlanRec) ∈ w10State.plans
    ∧ copyplan w10State 7 1 "taken" false true
        = (.duplicateName "You already have a plan named that. Please pick a unique name.",
           w10State) :=
  ⟨by decide, by decide,
   copyplan_duplicate_name w10State 7 1 "taken" false
     { id := 1, name := "taken", owner := 7, version := 0, legislative_body := 1,
       is_shared := false }
     (by decide)
     { id := 1, name := "taken", owner := 7, version := 0, legislative_body := 1,
       is_shared := false }
     (by decide) rfl rfl⟩
